import Mathlib

/-!
Verification of the emotion-scoring, journaling and webhook logic of the
CurioLytics Emotional-Analysis repository.

The Python source is shallowly embedded:

* A pandas DataFrame built from a list of Supabase row dicts is modelled as a
  `List Entry`, where each `Entry` carries its date string and an association
  list of the emotion labels that are present for that row, with rational
  values standing for the Python floats.  A column exists in the DataFrame
  exactly when at least one row carries the label (`colPresent`), matching
  `pd.DataFrame(list_of_dicts)`.
* A cell of a numeric column that is missing for a particular row is a NaN in
  pandas; NaN-propagating float arithmetic is modelled by `Option ℚ` with
  `none` for NaN (`nadd`, `nmul`), and the NaN-skipping `Series.mean` by
  summing and counting only the present values.
* Stateful Supabase calls of the journal page are modelled by explicit state
  passing over a `List JRow` store.
* HTTP calls of the webhook module are modelled by an `Except`-valued request
  outcome (`Except.error` = `requests.exceptions.RequestException` raised by
  `requests.post`), with the received response's `raise_for_status` outcome
  and JSON-parse outcome as explicit fields.
-/

namespace EmotionalAnalysis

/-! ## pages/analysis_page.py : constants -/

/-- `EMOTION_COLUMNS = ["joy", "sadness", "love", "anger", "fear", "surprise"]`. -/
def EMOTION_COLUMNS : List String := ["joy", "sadness", "love", "anger", "fear", "surprise"]

/-- `EMOTION_RATIOS` from analysis_page.py: joy 1.0, love 0.8, surprise 0.5,
fear -0.5, sadness -0.8, anger -0.9 (dict, keyed by label). -/
def EMOTION_RATIOS : List (String × ℚ) :=
  [("joy", 1), ("love", 4/5), ("surprise", 1/2), ("fear", -1/2), ("sadness", -4/5), ("anger", -9/10)]

/-- `EMOTION_RATIOS.get(emotion, 0.0)`. -/
def ratioOf (c : String) : ℚ := (EMOTION_RATIOS.lookup c).getD 0

/-- One Supabase row as fed to `pd.DataFrame`: the `date-entry` value and the
emotion labels present for this row with their numeric values.  A label that
the row does not carry is absent from `emotions` (a NaN cell in pandas once
some other row carries the label). -/
structure Entry where
  date : String
  emotions : List (String × ℚ)
deriving DecidableEq, Repr

/-- `c in df.columns` for the emotion columns: the column exists iff at least
one row carries the label. -/
def colPresent (df : List Entry) (c : String) : Bool :=
  df.any (fun e => (e.emotions.lookup c).isSome)

/-- NaN-propagating addition on float cells (`none` = NaN). -/
def nadd : Option ℚ → Option ℚ → Option ℚ
  | some a, some b => some (a + b)
  | _, _ => none

/-- NaN-propagating multiplication of a float cell by a constant. -/
def nmul (v : Option ℚ) (r : ℚ) : Option ℚ := v.map (fun x => x * r)

/-! ## pages/analysis_page.py : calculate_emotion_score -/

/-- The per-row value of the `emotion_score` column built by
`calculate_emotion_score`: starting from `0.0`, for each emotion in
`EMOTION_COLUMNS` that is a column of the DataFrame, add this row's cell
times the emotion's weight (`result_df['emotion_score'] += result_df[emotion]
* EMOTION_RATIOS.get(emotion, 0.0)`). -/
def entryScore (df : List Entry) (e : Entry) : Option ℚ :=
  EMOTION_COLUMNS.foldl
    (fun acc c =>
      if colPresent df c then nadd acc (nmul (e.emotions.lookup c) (ratioOf c)) else acc)
    (some 0)

/-- `calculate_emotion_score(df)`, restricted to the returned
`['date-entry', 'emotion_score']` columns: empty input gives the empty frame,
otherwise one `(date, score)` pair per row, in order. -/
def calculate_emotion_score (df : List Entry) : List (String × Option ℚ) :=
  if df.isEmpty then [] else df.map (fun e => (e.date, entryScore df e))

/-! ## pages/analysis_page.py : get_emotion_summary -/

/-- The column `df[c]` as a list of cells (`none` = NaN for rows missing the
label). -/
def colSeries (df : List Entry) (c : String) : List (Option ℚ) :=
  df.map (fun e => e.emotions.lookup c)

/-- `df[c].mean()` with pandas' default `skipna=True`: the mean of the
non-NaN cells. -/
def seriesMean (df : List Entry) (c : String) : ℚ :=
  (((colSeries df c).filterMap id).sum) / ((((colSeries df c).filterMap id).length : ℚ))

/-- `get_emotion_summary(df)`: `{}` on an empty frame, otherwise the dict
`{emotion: df[emotion].mean() for emotion in EMOTION_COLUMNS if emotion in
df.columns}` (insertion order follows `EMOTION_COLUMNS`). -/
def get_emotion_summary (df : List Entry) : List (String × ℚ) :=
  if df.isEmpty then []
  else EMOTION_COLUMNS.filterMap
    (fun c => if colPresent df c then some (c, seriesMean df c) else none)

/-! ## pages/analysis_page.py : calculate_dominant_emotion and
add_main_emotion_column -/

/-- Python's `max(items, key=lambda x: x[1])`: scan left to right, replace the
current best only on a strictly greater key, so ties keep the earliest item. -/
def pyMax (h : String × ℚ) (t : List (String × ℚ)) : String × ℚ :=
  t.foldl (fun best x => if best.2 < x.2 then x else best) h

/-- `calculate_dominant_emotion(df)`. -/
def calculate_dominant_emotion (df : List Entry) : String × ℚ :=
  if df.isEmpty then ("", 0)
  else
    match get_emotion_summary df with
    | [] => ("", 0)
    | h :: t => pyMax h t

/-- `{emotion: row[emotion] for emotion in EMOTION_COLUMNS if emotion in row}`
inside `get_max_emotion`: the row is a Series indexed by `df.columns`, so the
guard is column existence and the value may be NaN. -/
def rowEmotions (df : List Entry) (e : Entry) : List (String × Option ℚ) :=
  EMOTION_COLUMNS.filterMap
    (fun c => if colPresent df c then some (c, e.emotions.lookup c) else none)

/-- Python `>` on possibly-NaN floats: any comparison with NaN is false. -/
def optGt : Option ℚ → Option ℚ → Bool
  | some a, some b => decide (b < a)
  | _, _ => false

/-- Python's `max` over `(label, value)` items with possibly-NaN values. -/
def pyMaxOpt (h : String × Option ℚ) (t : List (String × Option ℚ)) : String × Option ℚ :=
  t.foldl (fun best x => if optGt x.2 best.2 then x else best) h

/-- `get_max_emotion(row)` from `add_main_emotion_column`: the label of the
maximal item, `""` when no emotion column exists. -/
def get_max_emotion (df : List Entry) (e : Entry) : String :=
  match rowEmotions df e with
  | [] => ""
  | h :: t => (pyMaxOpt h t).1

/-- `add_main_emotion_column(df)`, modelled as the added `main_emotion`
column: `none` when the frame is returned unchanged (empty frame or no
emotion column), otherwise the per-row dominant labels. -/
def add_main_emotion_column (df : List Entry) : Option (List String) :=
  if df.isEmpty || !(EMOTION_COLUMNS.any (fun c => colPresent df c)) then none
  else some (df.map (fun e => get_max_emotion df e))

/-! ## Spec-side descriptions used to state the claims -/

/-- The weighted sum over all six labels, reading a missing label as 0 (the
spec's formula for an entry that carries every label). -/
def weightedSum (e : Entry) : ℚ :=
  (EMOTION_COLUMNS.map (fun c => (e.emotions.lookup c).getD 0 * ratioOf c)).sum

/-- The values of label `c` over only the entries where the label is present
(the claim's description of the mean's population). -/
def presentVals (df : List Entry) (c : String) : List ℚ :=
  df.filterMap (fun e => e.emotions.lookup c)

/-- The labels of the six that this entry actually carries, paired with their
values, in declaration order (the claim's per-entry population for the
dominant label). -/
def entryPairs (e : Entry) : List (String × ℚ) :=
  EMOTION_COLUMNS.filterMap (fun c => (e.emotions.lookup c).map (fun v => (c, v)))

/-! ## pages/journal_page.py : the journal store, with explicit state passing -/

/-- A row of the remote `documents` table as the journal page sees it. -/
structure JRow where
  id : Nat
  dateE : String
  content : String
deriving DecidableEq, Repr

/-- The rows selected by `.eq("date-entry", date_str)`. -/
def rowsForDate (s : List JRow) (d : String) : List JRow :=
  s.filter (fun r => r.dateE == d)

/-- `get_journal_entry_by_date`: `response.data[0]` if any row matches, else
`None`. -/
def get_journal_entry_by_date (s : List JRow) (d : String) : Option JRow :=
  (rowsForDate s d).head?

/-- `add_journal_entry` on a reachable store: the insert appends one row
whose id the store assigns, and the returned data echoes it. -/
def add_journal_entry (s : List JRow) (d t : String) (newId : Nat) :
    List JRow × (Bool × Option Nat) :=
  (s ++ [⟨newId, d, t⟩], (true, some newId))

/-- `update_journal_entry`: `.update({"content": text}).eq("date-entry", d)`
rewrites the content of every matching row; success iff the response carries
at least one updated row, whose id is returned. -/
def update_journal_entry (s : List JRow) (d t : String) :
    List JRow × (Bool × Option Nat) :=
  let s2 := s.map (fun r => if r.dateE == d then { r with content := t } else r)
  match (rowsForDate s d).map (fun r => { r with content := t }) with
  | [] => (s2, (false, none))
  | r :: _ => (s2, (true, some r.id))

/-- The `(success, entry_id, was_update)` result of
`save_or_update_journal_entry`, together with the resulting store state. -/
structure SaveResult where
  store : List JRow
  success : Bool
  entryId : Option Nat
  wasUpdate : Bool
deriving DecidableEq, Repr

/-- `save_or_update_journal_entry`: query by date first; update in place when
a row exists, insert only otherwise. -/
def save_or_update_journal_entry (s : List JRow) (d t : String) (newId : Nat) : SaveResult :=
  match get_journal_entry_by_date s d with
  | some _ =>
      let u := update_journal_entry s d t
      ⟨u.1, u.2.1, u.2.2, true⟩
  | none =>
      let a := add_journal_entry s d t newId
      ⟨a.1, a.2.1, a.2.2, false⟩

/-! ## utils/webhook.py -/

/-- The HTTP response that `requests.post` handed back: whether
`raise_for_status()` raises (a `requests.exceptions.HTTPError`, a
`RequestException`), the raw body text, and the JSON-parse outcome of the
body (`none` when `response.json()` raises `json.JSONDecodeError`, the
top-level object's string entries otherwise). -/
structure WebResponse where
  statusErr : Option String
  text : String
  jsonBody : Option (List (String × String))
deriving DecidableEq, Repr

/-- `send_message_to_llm`, as a function of the outcome of the POST to the
chat relay (`Except.error` = `requests.post` raised a `RequestException`).
Per the standard library's class hierarchy — exercised by the repository's
own webhook tests — `json.JSONDecodeError` is a `ValueError`, not a
`RequestException`, so it reaches its own later except-branch. -/
def send_message_to_llm (res : Except String WebResponse) : Bool × String :=
  match res with
  | .error m => (false, "Webhook request failed: " ++ m)
  | .ok r =>
    match r.statusErr with
    | some m => (false, "Webhook request failed: " ++ m)
    | none =>
      match r.jsonBody with
      | none => (false, "Failed to parse webhook response: " ++ r.text)
      | some kv => (true, (kv.lookup "output").getD "No output received from LLM")

/-- `send_webhook_notification`, as a function of the POST outcome; the body
is never parsed. -/
def send_webhook_notification (res : Except String WebResponse) : Bool × String :=
  match res with
  | .error m => (false, "Webhook notification failed: " ++ m)
  | .ok r =>
    match r.statusErr with
    | some m => (false, "Webhook notification failed: " ++ m)
    | none => (true, "Webhook notification sent successfully")

/-- A DataFrame with its column labels explicit, as `get_emotion_scores`
builds one (`pd.DataFrame(columns=...)` on the empty paths). -/
structure PDF where
  cols : List String
  rows : List Entry
deriving DecidableEq, Repr

/-- `get_emotion_scores`, as a function of the Supabase query outcome: rows
found become the frame, no rows or a raised exception become the empty
frame with the `date-entry` column and the six emotion columns. -/
def get_emotion_scores (res : Except String (List Entry)) : PDF :=
  match res with
  | .ok rows =>
      if rows.length > 0
      then ⟨"date-entry" :: ((rows.map (fun e => e.emotions.map Prod.fst)).flatten).eraseDups,
        rows⟩
      else ⟨"date-entry" :: EMOTION_COLUMNS, []⟩
  | .error _ => ⟨"date-entry" :: EMOTION_COLUMNS, []⟩

/-! ## utils/auth.py -/

/-- `get_env(key, default)` over an explicit environment:
`os.environ.get(key, default)` then a `ValueError` when the result is
`None`. -/
def get_env (env : List (String × String)) (key : String) (dflt : Option String) :
    Except String String :=
  match env.lookup key with
  | some v => Except.ok v
  | none =>
      match dflt with
      | some dv => Except.ok dv
      | none =>
          Except.error ("Environment variable " ++ key ++ " is not set and no default provided")

/-- `get_supabase_credentials`: both variables fetched with no default, then
rejected when falsy (empty). -/
def get_supabase_credentials (env : List (String × String)) :
    Except String (String × String) :=
  match get_env env "SUPABASE_URL" none with
  | .error m => .error m
  | .ok url =>
    match get_env env "SUPABASE_KEY" none with
    | .error m => .error m
    | .ok key =>
        if url = "" ∨ key = ""
        then .error "Supabase credentials not found in environment variables"
        else .ok (url, key)

/-- `get_webhook_credentials`: every variable fetched with a hardcoded
default (empty string for the bearer token), so no branch raises. -/
def get_webhook_credentials (env : List (String × String)) :
    Except String (String × String × String) :=
  match get_env env "N8N_WEBHOOK_CHAT_URL"
      (some "https://curiolytics.app.n8n.cloud/webhook/webhook-path") with
  | .error m => .error m
  | .ok chat_url =>
    match get_env env "N8N_WEBHOOK_UPDATE_URL"
        (some "https://curiolytics.app.n8n.cloud/webhook/webhook-update-supabase") with
    | .error m => .error m
    | .ok update_url =>
      match get_env env "N8N_BEARER_TOKEN" (some "") with
      | .error m => .error m
      | .ok bearer_token => .ok (chat_url, update_url, bearer_token)

/-! ## Helper lemmas for the score fold -/

/-- Once the accumulator is NaN the score fold stays NaN. -/
lemma entryScore_foldl_none (df : List Entry) (e : Entry) (cs : List String) :
    cs.foldl
      (fun acc c =>
        if colPresent df c then nadd acc (nmul (e.emotions.lookup c) (ratioOf c)) else acc)
      none = none := by
  induction cs with
  | nil => rfl
  | cons c cs ih =>
      simp only [List.foldl_cons]
      have h1 : (if colPresent df c then
          nadd none (nmul (e.emotions.lookup c) (ratioOf c)) else none) = none := by
        cases hc : colPresent df c <;> simp [nadd]
      rw [h1, ih]

/-- Characterisation of the score fold: if every emotion column of the frame
(among `cs`) is present in the row, the result adds the weighted sum of the
present cells; otherwise some cell is NaN and the result is NaN. -/
lemma entryScore_foldl (df : List Entry) (e : Entry) (cs : List String) : ∀ a : ℚ,
    cs.foldl
      (fun acc c =>
        if colPresent df c then nadd acc (nmul (e.emotions.lookup c) (ratioOf c)) else acc)
      (some a)
    = if (cs.filter (fun c => colPresent df c)).all (fun c => (e.emotions.lookup c).isSome)
      then some (a + ((cs.filter (fun c => colPresent df c)).map
        (fun c => (e.emotions.lookup c).getD 0 * ratioOf c)).sum)
      else none := by
  induction cs with
  | nil => intro a; simp
  | cons c cs ih =>
      intro a
      rw [List.foldl_cons]
      by_cases hc : colPresent df c
      · rw [if_pos hc]
        have hfil : List.filter (fun c => colPresent df c) (c :: cs)
            = c :: List.filter (fun c => colPresent df c) cs := by
          simp [List.filter_cons, hc]
        cases hv : e.emotions.lookup c with
        | none =>
            have hstep : nadd (some a) (nmul none (ratioOf c)) = none := rfl
            rw [hstep, entryScore_foldl_none]
            have hcond : ((List.filter (fun c => colPresent df c) (c :: cs)).all
                (fun c => (e.emotions.lookup c).isSome)) = false := by
              rw [hfil]
              simp [hv]
            rw [hcond]
            simp
        | some v =>
            have hstep : nadd (some a) (nmul (some v) (ratioOf c)) = some (a + v * ratioOf c) :=
              rfl
            rw [hstep, ih (a + v * ratioOf c), hfil, List.all_cons, List.map_cons,
              List.sum_cons]
            simp only [hv, Option.isSome_some, Bool.true_and, Option.getD_some]
            by_cases hall : (cs.filter (fun c => colPresent df c)).all
                (fun c => (e.emotions.lookup c).isSome) = true
            · rw [if_pos hall, if_pos hall]
              simp only [Option.some.injEq]
              ring
            · rw [if_neg hall, if_neg hall]
      · have hfil : List.filter (fun c => colPresent df c) (c :: cs)
            = List.filter (fun c => colPresent df c) cs := by
          simp [List.filter_cons, hc]
        rw [if_neg hc, ih a, hfil]

/-! ## C1 -/

/-- Claim C1: for every frame whose rows all carry the six emotion labels,
`calculate_emotion_score` gives each entry the score
Σ label value × weight, with the fixed weights joy +1.0, love +0.8,
surprise +0.5, fear -0.5, sadness -0.8, anger -0.9. -/
theorem calculate_emotion_score_is_weighted_sum (df : List Entry)
    (hall : ∀ e ∈ df, ∀ c ∈ EMOTION_COLUMNS, (e.emotions.lookup c).isSome) :
    calculate_emotion_score df = df.map (fun e => (e.date, some (weightedSum e))) := by
  by_cases hdf : df = []
  · subst hdf; rfl
  · have hne : df.isEmpty = false := by
      cases df with
      | nil => exact absurd rfl hdf
      | cons e0 rest => rfl
    unfold calculate_emotion_score
    rw [hne]
    simp only [Bool.false_eq_true, if_false]
    apply List.map_congr_left
    intro e he
    have hscore : entryScore df e = some (weightedSum e) := by
      have hfilter : EMOTION_COLUMNS.filter (fun c => colPresent df c) = EMOTION_COLUMNS := by
        apply List.filter_eq_self.mpr
        intro c hc
        unfold colPresent
        rw [List.any_eq_true]
        exact ⟨e, he, hall e he c hc⟩
      have hpres : EMOTION_COLUMNS.all (fun c => (e.emotions.lookup c).isSome) = true := by
        rw [List.all_eq_true]
        intro c hc
        exact hall e he c hc
      unfold entryScore
      rw [entryScore_foldl df e EMOTION_COLUMNS 0, hfilter, if_pos hpres]
      unfold weightedSum
      rw [zero_add]
    simp only [hscore]

/-- Witness for C1 at the two concrete entries of the spec: joy 1.0 with the
other five labels 0 scores exactly 1.0, and all six labels 0 scores 0.0. -/
theorem calculate_emotion_score_is_weighted_sum_witness :
    calculate_emotion_score
      [⟨"2024-01-01", [("joy", 1), ("sadness", 0), ("love", 0), ("anger", 0), ("fear", 0),
        ("surprise", 0)]⟩,
       ⟨"2024-01-02", [("joy", 0), ("sadness", 0), ("love", 0), ("anger", 0), ("fear", 0),
        ("surprise", 0)]⟩]
    = [("2024-01-01", some 1), ("2024-01-02", some 0)] := by
  rw [calculate_emotion_score_is_weighted_sum _ (by decide)]
  simp [weightedSum, EMOTION_COLUMNS, ratioOf, EMOTION_RATIOS, List.lookup]

/-! ## C2 -/

/-- Counterexample to claim C2: in a frame where a second entry misses the
`joy` label that the first entry carries, the second entry's score is NaN
(the NaN cell propagates through `result_df[emotion] * ratio` and `+=`), not
the claimed weighted sum `0.0` over its (empty) set of present labels. -/
theorem missing_label_score_counterexample :
    calculate_emotion_score [⟨"d1", [("joy", 1)]⟩, ⟨"d2", []⟩]
      = [("d1", some 1), ("d2", none)] ∧
    calculate_emotion_score [⟨"d1", [("joy", 1)]⟩, ⟨"d2", []⟩]
      ≠ [("d1", some 1), ("d2", some 0)] := by
  have h : calculate_emotion_score [⟨"d1", [("joy", 1)]⟩, ⟨"d2", []⟩]
      = [("d1", some 1), ("d2", none)] := by
    simp [calculate_emotion_score, entryScore, EMOTION_COLUMNS, colPresent, ratioOf,
      EMOTION_RATIOS, nadd, nmul, List.lookup]
  exact ⟨h, by rw [h]; simp⟩

/-- Claim C2 as amended: a label absent from every entry contributes 0 to
every score (its column does not exist and is skipped), and an entry in a
collection with no recognized emotion labels at all scores 0.0; but when a
label is present for some entry and missing for a given entry, that entry's
score is NaN (`none`), not the weighted sum over its present labels. -/
theorem calculate_emotion_score_missing_labels :
    (∀ df : List Entry, calculate_emotion_score df = df.map (fun e => (e.date,
      if (EMOTION_COLUMNS.filter (fun c => colPresent df c)).all
          (fun c => (e.emotions.lookup c).isSome)
      then some (((EMOTION_COLUMNS.filter (fun c => colPresent df c)).map
        (fun c => (e.emotions.lookup c).getD 0 * ratioOf c)).sum)
      else none)))
    ∧ (∀ d : String, calculate_emotion_score [⟨d, []⟩] = [(d, some 0)]) := by
  have hmain : ∀ df : List Entry, calculate_emotion_score df = df.map (fun e => (e.date,
      if (EMOTION_COLUMNS.filter (fun c => colPresent df c)).all
          (fun c => (e.emotions.lookup c).isSome)
      then some (((EMOTION_COLUMNS.filter (fun c => colPresent df c)).map
        (fun c => (e.emotions.lookup c).getD 0 * ratioOf c)).sum)
      else none)) := by
    intro df
    by_cases hdf : df = []
    · subst hdf; rfl
    · have hne : df.isEmpty = false := by
        cases df with
        | nil => exact absurd rfl hdf
        | cons e0 rest => rfl
      unfold calculate_emotion_score
      rw [hne]
      simp only [Bool.false_eq_true, if_false]
      apply List.map_congr_left
      intro e he
      have hscore : entryScore df e
          = if (EMOTION_COLUMNS.filter (fun c => colPresent df c)).all
              (fun c => (e.emotions.lookup c).isSome)
            then some (((EMOTION_COLUMNS.filter (fun c => colPresent df c)).map
              (fun c => (e.emotions.lookup c).getD 0 * ratioOf c)).sum)
            else none := by
        unfold entryScore
        rw [entryScore_foldl df e EMOTION_COLUMNS 0, zero_add]
      simp only [hscore]
  refine ⟨hmain, ?_⟩
  intro d
  rw [hmain [⟨d, []⟩]]
  simp [EMOTION_COLUMNS, colPresent]

/-! ## C3 -/

/-- A label outside `cs` does not occur as a key of the summary built from
`cs`. -/
lemma summary_lookup_not_mem (df : List Entry) :
    ∀ (cs : List String) (c : String), c ∉ cs →
      (cs.filterMap
        (fun x => if colPresent df x then some (x, seriesMean df x) else none)).lookup c
      = none := by
  intro cs
  induction cs with
  | nil => intro c hc; rfl
  | cons x cs ih =>
      intro c hc
      have hcx : c ≠ x := fun h => hc (h ▸ List.mem_cons_self x cs)
      have hcs : c ∉ cs := fun h => hc (List.mem_cons_of_mem x h)
      have hbx : (c == x) = false := beq_eq_false_iff_ne.mpr hcx
      by_cases hg : colPresent df x
      · simp only [List.filterMap_cons, hg, if_true, List.lookup, hbx]
        exact ih c hcs
      · simp only [List.filterMap_cons, hg, Bool.false_eq_true, if_false]
        exact ih c hcs

/-- Lookup in the summary built from a duplicate-free key list: a present
column maps to its skipna mean, an absent one to nothing. -/
lemma summary_lookup_aux (df : List Entry) :
    ∀ (cs : List String), cs.Nodup → ∀ c ∈ cs,
      (cs.filterMap
        (fun x => if colPresent df x then some (x, seriesMean df x) else none)).lookup c
      = if colPresent df c then some (seriesMean df c) else none := by
  intro cs
  induction cs with
  | nil => intro _ c hc; exact absurd hc (List.not_mem_nil c)
  | cons x cs ih =>
      intro hnd c hc
      rcases List.mem_cons.mp hc with hcx | hcs
      · subst hcx
        have hnotin : c ∉ cs := (List.nodup_cons.mp hnd).1
        by_cases hg : colPresent df c
        · simp [List.filterMap_cons, hg, List.lookup]
        · simp only [List.filterMap_cons, hg, Bool.false_eq_true, if_false]
          rw [summary_lookup_not_mem df cs c hnotin]
      · have hnd' : cs.Nodup := (List.nodup_cons.mp hnd).2
        have hbx : (c == x) = false := by
          rw [beq_eq_false_iff_ne]
          intro h
          exact (List.nodup_cons.mp hnd).1 (h ▸ hcs)
        by_cases hg : colPresent df x
        · simp only [List.filterMap_cons, hg, if_true, List.lookup, hbx]
          exact ih hnd' c hcs
        · simp only [List.filterMap_cons, hg, Bool.false_eq_true, if_false]
          exact ih hnd' c hcs

/-- pandas' skipna mean of a column equals the mean over the entries where
the label is present. -/
lemma seriesMean_eq_presentVals (df : List Entry) (c : String) :
    seriesMean df c = (presentVals df c).sum / ((presentVals df c).length : ℚ) := by
  unfold seriesMean colSeries presentVals
  rw [List.filterMap_map]
  rfl

/-- Claim C3: on a non-empty frame, each emotion label present in at least
one entry is reported with the arithmetic mean of its values over only the
entries where the label is present (missing entries count in neither the
numerator nor the denominator), and a label absent from every entry is
omitted from the summary. -/
theorem get_emotion_summary_mean (df : List Entry) (hne : df ≠ []) (c : String)
    (hc : c ∈ EMOTION_COLUMNS) :
    (colPresent df c = true →
      (get_emotion_summary df).lookup c
        = some ((presentVals df c).sum / ((presentVals df c).length : ℚ)))
    ∧ (colPresent df c = false → (get_emotion_summary df).lookup c = none) := by
  have hempty : df.isEmpty = false := by
    cases df with
    | nil => exact absurd rfl hne
    | cons e0 rest => rfl
  have hlook : (get_emotion_summary df).lookup c
      = if colPresent df c then some (seriesMean df c) else none := by
    unfold get_emotion_summary
    rw [hempty]
    simp only [Bool.false_eq_true, if_false]
    exact summary_lookup_aux df EMOTION_COLUMNS (by decide) c hc
  constructor
  · intro hp
    rw [hlook, if_pos hp, seriesMean_eq_presentVals]
  · intro hp
    rw [hlook, if_neg (by rw [hp]; exact fun h => Bool.false_ne_true h)]

/-- Witness for C3 at the spec's example: `love` present in two of three
entries with values 0.4 and 0.6 has mean 0.5 (over 2, not 3, entries), and
`surprise`, absent everywhere, is omitted. -/
theorem get_emotion_summary_mean_witness :
    (get_emotion_summary
      [⟨"d1", [("love", 2/5)]⟩, ⟨"d2", [("love", 3/5)]⟩, ⟨"d3", [("joy", 1)]⟩]).lookup "love"
      = some (1/2)
    ∧ (get_emotion_summary
      [⟨"d1", [("love", 2/5)]⟩, ⟨"d2", [("love", 3/5)]⟩, ⟨"d3", [("joy", 1)]⟩]).lookup
        "surprise" = none := by
  constructor
  · have h := (get_emotion_summary_mean
      [⟨"d1", [("love", 2/5)]⟩, ⟨"d2", [("love", 3/5)]⟩, ⟨"d3", [("joy", 1)]⟩]
      (by decide) "love" (by decide)).1 (by decide)
    rw [h]
    have hv : presentVals
        [⟨"d1", [("love", (2:ℚ)/5)]⟩, ⟨"d2", [("love", 3/5)]⟩, ⟨"d3", [("joy", 1)]⟩] "love"
        = [2/5, 3/5] := by
      simp [presentVals, List.lookup]
    rw [hv]
    simp only [List.sum_cons, List.sum_nil, List.length_cons, List.length_nil,
      Option.some.injEq]
    norm_num
  · exact (get_emotion_summary_mean
      [⟨"d1", [("love", 2/5)]⟩, ⟨"d2", [("love", 3/5)]⟩, ⟨"d3", [("joy", 1)]⟩]
      (by decide) "surprise" (by decide)).2 (by decide)

/-! ## C4 -/

/-- Python's `max` splits its input around the returned item: everything
before it is strictly smaller, everything after it is no larger — i.e. the
result attains the maximum and is the first item to do so. -/
lemma pyMax_split : ∀ (t : List (String × ℚ)) (h : String × ℚ),
    ∃ l₁ l₂, h :: t = l₁ ++ pyMax h t :: l₂
      ∧ (∀ p ∈ l₁, p.2 < (pyMax h t).2)
      ∧ (∀ p ∈ l₂, p.2 ≤ (pyMax h t).2) := by
  intro t
  induction t with
  | nil =>
      intro h
      exact ⟨[], [], rfl, by simp, by simp⟩
  | cons x t ih =>
      intro h
      have hpm : pyMax h (x :: t) = pyMax (if h.2 < x.2 then x else h) t := rfl
      by_cases hlt : h.2 < x.2
      · rw [if_pos hlt] at hpm
        obtain ⟨l₁, l₂, hsplit, hbefore, hafter⟩ := ih x
        have hxle : x.2 ≤ (pyMax x t).2 := by
          cases l₁ with
          | nil =>
              have hx : x = pyMax x t := by
                have := hsplit
                rw [List.nil_append] at this
                exact (List.cons.injEq _ _ _ _ ▸ this).1
              rw [← hx]
          | cons y l₁ =>
              have hy : x = y := by
                rw [List.cons_append] at hsplit
                exact (List.cons.injEq _ _ _ _ ▸ hsplit).1
              have hlt' := hbefore y (List.mem_cons_self y l₁)
              rw [congrArg Prod.snd hy]
              exact le_of_lt hlt'
        refine ⟨h :: l₁, l₂, ?_, ?_, ?_⟩
        · rw [hpm, List.cons_append, ← hsplit]
        · intro p hp
          rw [hpm]
          rcases List.mem_cons.mp hp with hph | hpl
          · rw [hph]
            exact lt_of_lt_of_le hlt hxle
          · exact hbefore p hpl
        · intro p hp
          rw [hpm]
          exact hafter p hp
      · rw [if_neg hlt] at hpm
        have hxh : x.2 ≤ h.2 := le_of_not_lt hlt
        obtain ⟨l₁, l₂, hsplit, hbefore, hafter⟩ := ih h
        cases l₁ with
        | nil =>
            rw [List.nil_append] at hsplit
            have hh : h = pyMax h t := (List.cons.injEq _ _ _ _ ▸ hsplit).1
            have ht : t = l₂ := (List.cons.injEq _ _ _ _ ▸ hsplit).2
            refine ⟨[], x :: l₂, ?_, by simp, ?_⟩
            · rw [hpm, List.nil_append, ← hh, ← ht]
            · intro p hp
              rw [hpm]
              rcases List.mem_cons.mp hp with hpx | hpl
              · rw [hpx, ← hh]
                exact hxh
              · exact hafter p hpl
        | cons y l₁ =>
            rw [List.cons_append] at hsplit
            have hy : h = y := (List.cons.injEq _ _ _ _ ▸ hsplit).1
            have ht : t = l₁ ++ pyMax h t :: l₂ := (List.cons.injEq _ _ _ _ ▸ hsplit).2
            have hhlt : h.2 < (pyMax h t).2 := by
              have hlt' := hbefore y (List.mem_cons_self y l₁)
              rw [congrArg Prod.snd hy]
              exact hlt'
            refine ⟨h :: x :: l₁, l₂, ?_, ?_, ?_⟩
            · rw [hpm, List.cons_append, List.cons_append, ← ht]
            · intro p hp
              rw [hpm]
              rcases List.mem_cons.mp hp with hph | hp'
              · rw [hph]
                exact hhlt
              · rcases List.mem_cons.mp hp' with hpx | hpl
                · rw [hpx]
                  exact lt_of_le_of_lt hxh hhlt
                · exact hbefore p (List.mem_cons_of_mem y hpl)
            · intro p hp
              rw [hpm]
              exact hafter p hp

/-- On items whose values are all non-NaN, Python's `max` over possibly-NaN
values agrees with `pyMax` on the underlying rationals. -/
lemma pyMaxOpt_map : ∀ (t : List (String × ℚ)) (h : String × ℚ),
    pyMaxOpt (h.1, some h.2) (t.map (fun p => (p.1, some p.2)))
      = ((pyMax h t).1, some (pyMax h t).2) := by
  intro t
  induction t with
  | nil => intro h; rfl
  | cons x t ih =>
      intro h
      have hpm : pyMax h (x :: t) = pyMax (if h.2 < x.2 then x else h) t := rfl
      have hstep : pyMaxOpt (h.1, some h.2)
          ((x :: t).map (fun p => (p.1, some p.2)))
          = pyMaxOpt ((if h.2 < x.2 then x else h).1, some (if h.2 < x.2 then x else h).2)
              (t.map (fun p => (p.1, some p.2))) := by
        rw [List.map_cons]
        unfold pyMaxOpt
        rw [List.foldl_cons]
        by_cases hlt : h.2 < x.2
        · simp [optGt, hlt]
        · simp [optGt, hlt]
      rw [hstep, ih (if h.2 < x.2 then x else h), hpm]

/-- For a single-entry frame the per-row label/value items of
`get_max_emotion` are exactly the entry's own recognized labels, all with
non-NaN values. -/
lemma rowEmotions_single (e : Entry) :
    rowEmotions [e] e = (entryPairs e).map (fun p => (p.1, some p.2)) := by
  unfold rowEmotions entryPairs
  rw [List.map_filterMap]
  have hfun : ∀ c, (if colPresent [e] c then some (c, e.emotions.lookup c) else none)
      = ((e.emotions.lookup c).map (fun v => (c, v))).map
          (fun p : String × ℚ => (p.1, some p.2)) := by
    intro c
    cases hv : e.emotions.lookup c with
    | none => simp [colPresent, hv]
    | some v => simp [colPresent, hv]
  exact List.filterMap_congr (fun c _ => hfun c)

/-- The label of the maximal item for a single-entry frame, through the
Option lifting. -/
lemma get_max_emotion_single (e : Entry) (p : String × ℚ) (t : List (String × ℚ))
    (hp : entryPairs e = p :: t) :
    get_max_emotion [e] e = (pyMax p t).1 := by
  unfold get_max_emotion
  rw [rowEmotions_single, hp, List.map_cons]
  show (pyMaxOpt (p.1, some p.2) (t.map (fun p => (p.1, some p.2)))).1 = (pyMax p t).1
  rw [pyMaxOpt_map t p]

/-- A filterMap whose results keep their source key produces keys in source
order (a sublist of the scanned key list). -/
lemma filterMap_keys_sublist {β : Type} (f : String → Option (String × β))
    (hf : ∀ x y, f x = some y → y.1 = x) :
    ∀ cs : List String, ((cs.filterMap f).map Prod.fst).Sublist cs := by
  intro cs
  induction cs with
  | nil => simp
  | cons x cs ih =>
      cases hfx : f x with
      | none =>
          simp only [List.filterMap_cons, hfx]
          exact ih.cons x
      | some y =>
          simp only [List.filterMap_cons, hfx, List.map_cons, hf x y hfx]
          exact ih.cons₂ x

/-- The summary's keys follow the fixed declaration order of the six labels. -/
lemma get_emotion_summary_keys_sublist (df : List Entry) :
    ((get_emotion_summary df).map Prod.fst).Sublist EMOTION_COLUMNS := by
  unfold get_emotion_summary
  by_cases hdf : df.isEmpty
  · simp [hdf]
  · rw [if_neg hdf]
    apply filterMap_keys_sublist
    intro x y hxy
    by_cases hg : colPresent df x
    · rw [if_pos hg] at hxy
      cases hxy
      rfl
    · rw [if_neg hg] at hxy
      cases hxy

/-- The entry's own recognized labels also follow declaration order. -/
lemma entryPairs_keys_sublist (e : Entry) :
    ((entryPairs e).map Prod.fst).Sublist EMOTION_COLUMNS := by
  unfold entryPairs
  apply filterMap_keys_sublist
  intro x y hxy
  cases hv : e.emotions.lookup x with
  | none => rw [hv] at hxy; cases hxy
  | some v => rw [hv] at hxy; cases hxy; rfl

/-- Claim C4: on a non-empty frame with a non-empty summary,
`calculate_dominant_emotion` returns the summary item attaining the maximal
mean, and on ties the first such item — the summary being keyed in the fixed
declaration order joy, sadness, love, anger, fear, surprise; likewise the
per-entry dominant label of a single entry is the first declaration-order
label attaining the entry's maximum value, deterministically. -/
theorem dominant_emotion_first_in_order :
    (∀ (df : List Entry) (p : String × ℚ) (s : List (String × ℚ)),
      df ≠ [] → get_emotion_summary df = p :: s →
      ((get_emotion_summary df).map Prod.fst).Sublist EMOTION_COLUMNS
      ∧ ∃ l₁ l₂, p :: s = l₁ ++ calculate_dominant_emotion df :: l₂
        ∧ (∀ q ∈ l₁, q.2 < (calculate_dominant_emotion df).2)
        ∧ (∀ q ∈ l₂, q.2 ≤ (calculate_dominant_emotion df).2))
    ∧ (∀ (e : Entry) (p : String × ℚ) (t : List (String × ℚ)),
      entryPairs e = p :: t →
      ((entryPairs e).map Prod.fst).Sublist EMOTION_COLUMNS
      ∧ ∃ m l₁ l₂, p :: t = l₁ ++ m :: l₂ ∧ get_max_emotion [e] e = m.1
        ∧ (∀ q ∈ l₁, q.2 < m.2) ∧ (∀ q ∈ l₂, q.2 ≤ m.2)) := by
  constructor
  · intro df p s hne hsum
    have hempty : df.isEmpty = false := by
      cases df with
      | nil => exact absurd rfl hne
      | cons e0 rest => rfl
    have hdom : calculate_dominant_emotion df = pyMax p s := by
      unfold calculate_dominant_emotion
      rw [hempty]
      simp only [Bool.false_eq_true, if_false, hsum]
    refine ⟨get_emotion_summary_keys_sublist df, ?_⟩
    rw [hdom]
    exact pyMax_split s p
  · intro e p t hp
    refine ⟨entryPairs_keys_sublist e, pyMax p t, ?_⟩
    obtain ⟨l₁, l₂, hsplit, hbefore, hafter⟩ := pyMax_split t p
    exact ⟨l₁, l₂, hsplit, get_max_emotion_single e p t hp, hbefore, hafter⟩

/-- Witness for C4 at the spec's tie example `{joy: 0.5, anger: 0.5}`: the
summary lists joy before anger with equal means, the aggregate dominant
emotion is joy, and the per-entry dominant label is joy. -/
theorem dominant_emotion_first_in_order_witness :
    get_emotion_summary [⟨"d", [("joy", 1/2), ("anger", 1/2)]⟩]
      = [("joy", 1/2), ("anger", 1/2)]
    ∧ (∃ l₁ l₂, [("joy", (1:ℚ)/2), ("anger", 1/2)]
        = l₁ ++ calculate_dominant_emotion [⟨"d", [("joy", 1/2), ("anger", 1/2)]⟩] :: l₂
      ∧ (∀ q ∈ l₁, q.2 < (calculate_dominant_emotion
          [⟨"d", [("joy", 1/2), ("anger", 1/2)]⟩]).2)
      ∧ (∀ q ∈ l₂, q.2 ≤ (calculate_dominant_emotion
          [⟨"d", [("joy", 1/2), ("anger", 1/2)]⟩]).2))
    ∧ entryPairs ⟨"d", [("joy", 1/2), ("anger", 1/2)]⟩ = [("joy", 1/2), ("anger", 1/2)]
    ∧ get_max_emotion [⟨"d", [("joy", 1/2), ("anger", 1/2)]⟩]
        ⟨"d", [("joy", 1/2), ("anger", 1/2)]⟩ = "joy" := by
  have hsum : get_emotion_summary [⟨"d", [("joy", 1/2), ("anger", 1/2)]⟩]
      = [("joy", 1/2), ("anger", 1/2)] := by
    simp [get_emotion_summary, EMOTION_COLUMNS, colPresent, seriesMean, colSeries,
      List.lookup]
  have hpairs : entryPairs ⟨"d", [("joy", 1/2), ("anger", 1/2)]⟩
      = [("joy", 1/2), ("anger", 1/2)] := by
    simp [entryPairs, EMOTION_COLUMNS, List.lookup]
  have hA := (dominant_emotion_first_in_order.1
    [⟨"d", [("joy", 1/2), ("anger", 1/2)]⟩] ("joy", 1/2) [("anger", 1/2)]
    (List.cons_ne_nil _ _) hsum).2
  refine ⟨hsum, hA, hpairs, ?_⟩
  have hgm := get_max_emotion_single ⟨"d", [("joy", 1/2), ("anger", 1/2)]⟩ ("joy", 1/2)
    [("anger", 1/2)] hpairs
  rw [hgm]
  simp [pyMax]

/-- Claim C5: on an empty collection of entries `get_emotion_summary` returns
the empty mapping and `calculate_dominant_emotion` returns the sentinel
`("", 0.0)`; both are total functions, so neither errors on empty input. -/
theorem empty_input_sentinels :
    get_emotion_summary [] = [] ∧ calculate_dominant_emotion [] = ("", 0) := by
  constructor <;> rfl

/-! ## Journal store lemmas -/

/-- Updating contents in place does not change which rows match the date. -/
lemma rowsForDate_update (s : List JRow) (d t : String) :
    rowsForDate (s.map (fun r => if r.dateE == d then { r with content := t } else r)) d
      = (rowsForDate s d).map (fun r => { r with content := t }) := by
  induction s with
  | nil => rfl
  | cons r s ih =>
      unfold rowsForDate at ih ⊢
      rw [List.map_cons]
      by_cases hr : r.dateE = d
      · simp only [hr, beq_self_eq_true, if_true, List.filter_cons]
        rw [List.map_cons, ih, hr]
      · have hb : (r.dateE == d) = false := beq_eq_false_iff_ne.mpr hr
        simp only [hb, Bool.false_eq_true, if_false, List.filter_cons, hb]
        exact ih

/-! ## C6 -/

/-- Claim C6: `save_or_update_journal_entry` queries for an existing entry on
the date first; when one exists it updates that entry's content in place
(reporting `was_update = true`) and performs no insert — the store keeps its
size and the set of rows for the date — and only when none exists does it
insert one new row, so a single-writer re-save never creates a second row
for the same date. -/
theorem save_or_update_no_duplicate_row (s : List JRow) (d t : String) (newId : Nat) :
    (∀ r₀ rest, rowsForDate s d = r₀ :: rest →
      (save_or_update_journal_entry s d t newId).wasUpdate = true
      ∧ (save_or_update_journal_entry s d t newId).success = true
      ∧ (save_or_update_journal_entry s d t newId).entryId = some r₀.id
      ∧ (save_or_update_journal_entry s d t newId).store.length = s.length
      ∧ rowsForDate (save_or_update_journal_entry s d t newId).store d
          = (r₀ :: rest).map (fun r => { r with content := t }))
    ∧ (rowsForDate s d = [] →
      (save_or_update_journal_entry s d t newId).wasUpdate = false
      ∧ (save_or_update_journal_entry s d t newId).store = s ++ [⟨newId, d, t⟩]
      ∧ rowsForDate (save_or_update_journal_entry s d t newId).store d = [⟨newId, d, t⟩]) := by
  constructor
  · intro r₀ rest hrows
    have hget : get_journal_entry_by_date s d = some r₀ := by
      unfold get_journal_entry_by_date
      rw [hrows]
      rfl
    have hres : save_or_update_journal_entry s d t newId
        = ⟨s.map (fun r => if r.dateE == d then { r with content := t } else r),
           true, some r₀.id, true⟩ := by
      unfold save_or_update_journal_entry
      rw [hget]
      unfold update_journal_entry
      rw [hrows, List.map_cons]
    rw [hres]
    refine ⟨rfl, rfl, rfl, List.length_map _ _, ?_⟩
    rw [show (⟨s.map (fun r => if r.dateE == d then { r with content := t } else r),
        true, some r₀.id, true⟩ : SaveResult).store
        = s.map (fun r => if r.dateE == d then { r with content := t } else r) from rfl,
      rowsForDate_update, hrows]
  · intro hrows
    have hget : get_journal_entry_by_date s d = none := by
      unfold get_journal_entry_by_date
      rw [hrows]
      rfl
    have hres : save_or_update_journal_entry s d t newId
        = ⟨s ++ [⟨newId, d, t⟩], true, some newId, false⟩ := by
      unfold save_or_update_journal_entry
      rw [hget]
      rfl
    rw [hres]
    refine ⟨rfl, rfl, ?_⟩
    unfold rowsForDate at hrows ⊢
    rw [List.filter_append, hrows, List.nil_append]
    simp

/-- Witness for C6: re-saving the only entry of 2024-01-01 updates it in
place (same single row, new content, `was_update` true), while saving for
the fresh date 2024-01-02 appends one new row with the store-assigned id. -/
theorem save_or_update_no_duplicate_row_witness :
    ((save_or_update_journal_entry [⟨1, "2024-01-01", "old"⟩] "2024-01-01" "new" 7).wasUpdate
        = true
      ∧ (save_or_update_journal_entry [⟨1, "2024-01-01", "old"⟩] "2024-01-01" "new" 7).success
        = true
      ∧ (save_or_update_journal_entry [⟨1, "2024-01-01", "old"⟩] "2024-01-01" "new" 7).entryId
        = some 1
      ∧ (save_or_update_journal_entry
          [⟨1, "2024-01-01", "old"⟩] "2024-01-01" "new" 7).store.length = 1
      ∧ rowsForDate (save_or_update_journal_entry
          [⟨1, "2024-01-01", "old"⟩] "2024-01-01" "new" 7).store "2024-01-01"
        = [⟨1, "2024-01-01", "new"⟩])
    ∧ ((save_or_update_journal_entry [⟨1, "2024-01-01", "old"⟩] "2024-01-02" "x" 7).wasUpdate
        = false
      ∧ (save_or_update_journal_entry [⟨1, "2024-01-01", "old"⟩] "2024-01-02" "x" 7).store
        = [⟨1, "2024-01-01", "old"⟩, ⟨7, "2024-01-02", "x"⟩]
      ∧ rowsForDate (save_or_update_journal_entry
          [⟨1, "2024-01-01", "old"⟩] "2024-01-02" "x" 7).store "2024-01-02"
        = [⟨7, "2024-01-02", "x"⟩]) := by
  constructor
  · exact (save_or_update_no_duplicate_row [⟨1, "2024-01-01", "old"⟩] "2024-01-01" "new" 7).1
      ⟨1, "2024-01-01", "old"⟩ [] (by decide)
  · exact (save_or_update_no_duplicate_row [⟨1, "2024-01-01", "old"⟩] "2024-01-02" "x" 7).2
      (by decide)

/-! ## C7 -/

/-- Claim C7: an HTTP response received but unparseable as JSON is caught in
its own branch, separate from the transport-error branch, and reported as
`(false, ...)` with a message naming the malformed body — distinguishable
from the transport-error message for every exception text and body text. -/
theorem malformed_response_distinct_error :
    (∀ r : WebResponse, r.statusErr = none → r.jsonBody = none →
      send_message_to_llm (Except.ok r)
        = (false, "Failed to parse webhook response: " ++ r.text))
    ∧ (∀ m, send_message_to_llm (Except.error m) = (false, "Webhook request failed: " ++ m))
    ∧ (∀ m t : String,
        ("Webhook request failed: " ++ m) ≠ ("Failed to parse webhook response: " ++ t)) := by
  refine ⟨?_, ?_, ?_⟩
  · intro r hs hb
    simp only [send_message_to_llm]
    rw [hs, hb]
  · intro m
    rfl
  · intro m t h
    have h1 := congrArg String.data h
    rw [String.data_append, String.data_append] at h1
    have e1 : "Webhook request failed: ".data = 'W' :: "ebhook request failed: ".data := rfl
    have e2 : "Failed to parse webhook response: ".data
        = 'F' :: "ailed to parse webhook response: ".data := rfl
    rw [e1, e2, List.cons_append, List.cons_append] at h1
    injection h1 with hh ht
    exact absurd hh (by decide)

/-- Witness for C7: a well-delivered response whose body `not json` fails to
parse yields the parse-failure message, and a transport error yields the
request-failure message; the two differ. -/
theorem malformed_response_distinct_error_witness :
    send_message_to_llm (Except.ok ⟨none, "not json", none⟩)
      = (false, "Failed to parse webhook response: " ++ "not json")
    ∧ send_message_to_llm (Except.error "connection refused")
      = (false, "Webhook request failed: " ++ "connection refused")
    ∧ ("Webhook request failed: " ++ "connection refused")
      ≠ ("Failed to parse webhook response: " ++ "not json") := by
  refine ⟨?_, ?_, ?_⟩
  · exact malformed_response_distinct_error.1 ⟨none, "not json", none⟩ rfl rfl
  · exact malformed_response_distinct_error.2.1 "connection refused"
  · exact malformed_response_distinct_error.2.2 "connection refused" "not json"

/-! ## C8 -/

/-- Claim C8: a failed remote call never crashes the caller —
`get_emotion_scores` turns a raised exception into the empty default frame
with the date column and the six emotion columns, a no-rows result is the
same valid empty frame, and `send_message_to_llm` and
`send_webhook_notification` turn transport and HTTP-status errors into
`(false, message)` results. -/
theorem remote_failure_degrades_gracefully :
    (∀ msg, get_emotion_scores (Except.error msg)
      = ⟨"date-entry" :: EMOTION_COLUMNS, []⟩)
    ∧ get_emotion_scores (Except.ok []) = ⟨"date-entry" :: EMOTION_COLUMNS, []⟩
    ∧ (∀ m, send_message_to_llm (Except.error m) = (false, "Webhook request failed: " ++ m))
    ∧ (∀ m, send_webhook_notification (Except.error m)
        = (false, "Webhook notification failed: " ++ m))
    ∧ (∀ (r : WebResponse) (m : String), r.statusErr = some m →
        send_webhook_notification (Except.ok r)
          = (false, "Webhook notification failed: " ++ m)) := by
  refine ⟨fun msg => rfl, rfl, fun m => rfl, fun m => rfl, ?_⟩
  intro r m hm
  simp only [send_webhook_notification]
  rw [hm]

/-- Witness for C8: a 500-status response to the notification webhook is
reported as a `(false, message)` result. -/
theorem remote_failure_degrades_gracefully_witness :
    send_webhook_notification (Except.ok ⟨some "500 Server Error", "", none⟩)
      = (false, "Webhook notification failed: " ++ "500 Server Error") :=
  remote_failure_degrades_gracefully.2.2.2.2 ⟨some "500 Server Error", "", none⟩
    "500 Server Error" rfl

/-! ## C10 -/

/-- Claim C10: a successful HTTP status with parseable JSON lacking the
`output` key is still reported as success, with the fabricated placeholder
text in place of a reply. -/
theorem missing_output_reports_success (r : WebResponse) (hs : r.statusErr = none)
    (kv : List (String × String)) (hb : r.jsonBody = some kv)
    (hl : kv.lookup "output" = none) :
    send_message_to_llm (Except.ok r) = (true, "No output received from LLM") := by
  simp only [send_message_to_llm]
  rw [hs, hb]
  show (true, (kv.lookup "output").getD "No output received from LLM")
    = (true, "No output received from LLM")
  rw [hl]
  rfl

/-- Witness for C10 at the empty JSON object response. -/
theorem missing_output_reports_success_witness :
    send_message_to_llm (Except.ok ⟨none, "{}", some []⟩)
      = (true, "No output received from LLM") :=
  missing_output_reports_success ⟨none, "{}", some []⟩ rfl [] rfl rfl

/-! ## C9 -/

/-- Counterexample to claim C9: in the empty environment — every webhook
variable unset — `get_webhook_credentials` raises nothing and returns the
hardcoded default URLs with an empty bearer token. -/
theorem webhook_credentials_no_raise_counterexample :
    get_webhook_credentials []
      = Except.ok ("https://curiolytics.app.n8n.cloud/webhook/webhook-path",
          "https://curiolytics.app.n8n.cloud/webhook/webhook-update-supabase", "")
    ∧ (get_webhook_credentials []).isOk = true :=
  ⟨rfl, rfl⟩

/-- Claim C9 as amended: `get_supabase_credentials` raises a ValueError
before any query whenever `SUPABASE_URL` or `SUPABASE_KEY` is unset or
empty; `get_webhook_credentials`, by contrast, never raises — missing
webhook variables fall back to hardcoded defaults and an empty token. -/
theorem supabase_raises_webhook_defaults :
    (∀ env : List (String × String),
      (env.lookup "SUPABASE_URL").getD "" = "" ∨ (env.lookup "SUPABASE_KEY").getD "" = "" →
      ∃ m, get_supabase_credentials env = Except.error m)
    ∧ (∀ env : List (String × String), ∃ c u b,
        get_webhook_credentials env = Except.ok (c, u, b)) := by
  constructor
  · intro env h
    cases hu : env.lookup "SUPABASE_URL" with
    | none =>
        refine ⟨"Environment variable " ++ "SUPABASE_URL"
          ++ " is not set and no default provided", ?_⟩
        unfold get_supabase_credentials get_env
        rw [hu]
    | some u =>
        cases hk : env.lookup "SUPABASE_KEY" with
        | none =>
            refine ⟨"Environment variable " ++ "SUPABASE_KEY"
              ++ " is not set and no default provided", ?_⟩
            unfold get_supabase_credentials get_env
            rw [hu, hk]
        | some k =>
            rw [hu, hk] at h
            simp only [Option.getD_some] at h
            refine ⟨"Supabase credentials not found in environment variables", ?_⟩
            unfold get_supabase_credentials get_env
            rw [hu, hk]
            exact if_pos h
  · intro env
    unfold get_webhook_credentials get_env
    cases env.lookup "N8N_WEBHOOK_CHAT_URL" <;>
      cases env.lookup "N8N_WEBHOOK_UPDATE_URL" <;>
        cases env.lookup "N8N_BEARER_TOKEN" <;>
          exact ⟨_, _, _, rfl⟩

/-- Witness for C9's amended claim: the empty environment makes
`get_supabase_credentials` raise and `get_webhook_credentials` succeed. -/
theorem supabase_raises_webhook_defaults_witness :
    (∃ m, get_supabase_credentials [] = Except.error m)
    ∧ (∃ c u b, get_webhook_credentials [] = Except.ok (c, u, b)) :=
  ⟨supabase_raises_webhook_defaults.1 [] (Or.inl rfl),
   supabase_raises_webhook_defaults.2 []⟩

end EmotionalAnalysis
